import Mathlib

/-!
Verification development for the FDTD grid engine (`fdtd/grid.py`,
`fdtd/sources.py`).

The numeric arrays of the Python code are modelled as total functions from
indices to real numbers; an array of shape `(Nx, Ny, Nz, 3)` is a `FieldArr`
together with a `Shape3` record, and out-of-bounds positions simply carry the
value `0` (they are never observed by the code).  Floating point arithmetic is
idealised as real arithmetic.  Python `int(x)` on a float is truncation toward
zero, modelled by `pyInt` (and `pyIntQ` on rationals, for the exact index
arithmetic of `linspace`).

External collaborator classes (boundaries, detectors, material objects) are
not part of this repository's two source files; their collections on the grid
are given the uninhabited element type `Empty`, so every modelled grid has
those collections empty and the corresponding per-step loops are vacuous.
-/

/-- Python `int(x)` applied to a float: truncation toward zero. -/
noncomputable def pyInt (x : ℝ) : ℤ :=
  if 0 ≤ x then ⌊x⌋ else ⌈x⌉

/-- Python `int(q)` / numpy cast-to-int on an exact rational value:
truncation toward zero. -/
def pyIntQ (q : ℚ) : ℤ :=
  if 0 ≤ q then ⌊q⌋ else ⌈q⌉

/-- A dense 4-axis array value `(i, j, k, component) ↦ ℝ`.  The last axis of
the arrays in the code always has size 3 (the field components). -/
def FieldArr : Type :=
  ℕ → ℕ → ℕ → ℕ → ℝ

/-- The shape `(Nx, Ny, Nz)` of the first three axes of a field array. -/
structure Shape3 where
  Nx : ℕ
  Ny : ℕ
  Nz : ℕ

/-- `bd.zeros(shape)`: the all-zero array. -/
def fzeros : FieldArr := fun _ _ _ _ => 0

/-- `curl_E` of `grid.py`: six sequential in-place slab updates on a fresh
zero array.  Each `let` mirrors one numpy statement; a slab statement touches
exactly the in-bounds cells selected on the left (`[:-1]` along a differenced
axis becomes the guard `· + 1 < size`). -/
noncomputable def curl_E (sh : Shape3) (E : FieldArr) : FieldArr :=
  let c0 : FieldArr := fzeros
  -- curl_E[:, :-1, :, 0] += E[:, 1:, :, 2] - E[:, :-1, :, 2]
  let c1 : FieldArr := fun i j k c =>
    if i < sh.Nx ∧ j + 1 < sh.Ny ∧ k < sh.Nz ∧ c = 0 then
      c0 i j k c + (E i (j + 1) k 2 - E i j k 2)
    else c0 i j k c
  -- curl_E[:, :, :-1, 0] -= E[:, :, 1:, 1] - E[:, :, :-1, 1]
  let c2 : FieldArr := fun i j k c =>
    if i < sh.Nx ∧ j < sh.Ny ∧ k + 1 < sh.Nz ∧ c = 0 then
      c1 i j k c - (E i j (k + 1) 1 - E i j k 1)
    else c1 i j k c
  -- curl_E[:, :, :-1, 1] += E[:, :, 1:, 0] - E[:, :, :-1, 0]
  let c3 : FieldArr := fun i j k c =>
    if i < sh.Nx ∧ j < sh.Ny ∧ k + 1 < sh.Nz ∧ c = 1 then
      c2 i j k c + (E i j (k + 1) 0 - E i j k 0)
    else c2 i j k c
  -- curl_E[:-1, :, :, 1] -= E[1:, :, :, 2] - E[:-1, :, :, 2]
  let c4 : FieldArr := fun i j k c =>
    if i + 1 < sh.Nx ∧ j < sh.Ny ∧ k < sh.Nz ∧ c = 1 then
      c3 i j k c - (E (i + 1) j k 2 - E i j k 2)
    else c3 i j k c
  -- curl_E[:-1, :, :, 2] += E[1:, :, :, 1] - E[:-1, :, :, 1]
  let c5 : FieldArr := fun i j k c =>
    if i + 1 < sh.Nx ∧ j < sh.Ny ∧ k < sh.Nz ∧ c = 2 then
      c4 i j k c + (E (i + 1) j k 1 - E i j k 1)
    else c4 i j k c
  -- curl_E[:, :-1, :, 2] -= E[:, 1:, :, 0] - E[:, :-1, :, 0]
  let c6 : FieldArr := fun i j k c =>
    if i < sh.Nx ∧ j + 1 < sh.Ny ∧ k < sh.Nz ∧ c = 2 then
      c5 i j k c - (E i (j + 1) k 0 - E i j k 0)
    else c5 i j k c
  c6

/-- `curl_H` of `grid.py`: the backward-difference dual of `curl_E`; the six
slab statements write into `[1:]` along the differenced axis (guard
`1 ≤ ·`) and subtract the value at the previous index. -/
noncomputable def curl_H (sh : Shape3) (H : FieldArr) : FieldArr :=
  let c0 : FieldArr := fzeros
  -- curl_H[:, 1:, :, 0] += H[:, 1:, :, 2] - H[:, :-1, :, 2]
  let c1 : FieldArr := fun i j k c =>
    if i < sh.Nx ∧ 1 ≤ j ∧ j < sh.Ny ∧ k < sh.Nz ∧ c = 0 then
      c0 i j k c + (H i j k 2 - H i (j - 1) k 2)
    else c0 i j k c
  -- curl_H[:, :, 1:, 0] -= H[:, :, 1:, 1] - H[:, :, :-1, 1]
  let c2 : FieldArr := fun i j k c =>
    if i < sh.Nx ∧ j < sh.Ny ∧ 1 ≤ k ∧ k < sh.Nz ∧ c = 0 then
      c1 i j k c - (H i j k 1 - H i j (k - 1) 1)
    else c1 i j k c
  -- curl_H[:, :, 1:, 1] += H[:, :, 1:, 0] - H[:, :, :-1, 0]
  let c3 : FieldArr := fun i j k c =>
    if i < sh.Nx ∧ j < sh.Ny ∧ 1 ≤ k ∧ k < sh.Nz ∧ c = 1 then
      c2 i j k c + (H i j k 0 - H i j (k - 1) 0)
    else c2 i j k c
  -- curl_H[1:, :, :, 1] -= H[1:, :, :, 2] - H[:-1, :, :, 2]
  let c4 : FieldArr := fun i j k c =>
    if 1 ≤ i ∧ i < sh.Nx ∧ j < sh.Ny ∧ k < sh.Nz ∧ c = 1 then
      c3 i j k c - (H i j k 2 - H (i - 1) j k 2)
    else c3 i j k c
  -- curl_H[1:, :, :, 2] += H[1:, :, :, 1] - H[:-1, :, :, 1]
  let c5 : FieldArr := fun i j k c =>
    if 1 ≤ i ∧ i < sh.Nx ∧ j < sh.Ny ∧ k < sh.Nz ∧ c = 2 then
      c4 i j k c + (H i j k 1 - H (i - 1) j k 1)
    else c4 i j k c
  -- curl_H[:, 1:, :, 2] -= H[:, 1:, :, 0] - H[:, :-1, :, 0]
  let c6 : FieldArr := fun i j k c =>
    if i < sh.Nx ∧ 1 ≤ j ∧ j < sh.Ny ∧ k < sh.Nz ∧ c = 2 then
      c5 i j k c - (H i j k 0 - H i (j - 1) k 0)
    else c5 i j k c
  c6

/-- The constant `SPEED_LIGHT` of `grid.py`. -/
noncomputable def SPEED_LIGHT : ℝ := 299792458.0

/-- A Python number: either an `int` or a `float` (the two cases the
resolvers distinguish with `isinstance(·, int)` / `isinstance(·, float)`). -/
inductive PyNum where
  | int (n : ℤ)
  | float (x : ℝ)

/-- One endpoint of a resolved slice: `None` or an integer. -/
inductive SliceEnd where
  | nul
  | int (n : ℤ)

/-- A per-axis index key as accepted by `Grid.__setitem__`: a single number,
a list of numbers, or a slice whose endpoints are numbers or `None`. -/
inductive AxisKey where
  | num (n : PyNum)
  | list (l : List PyNum)
  | slice (start stop step : Option PyNum)

/-- A per-axis key after `Grid._handle_single_key`: a list of integer
indices, or a slice with resolved endpoints. -/
inductive ResolvedKey where
  | list (l : List ℤ)
  | slice (start stop step : SliceEnd)

/-- The state of a `LineSource` after `_register_grid` has completed: the
normalized coordinate lists, the period in timesteps, and the precomputed
Gaussian profile. -/
structure SourceRec where
  xs : List ℤ
  ys : List ℤ
  zs : List ℤ
  period : ℤ
  power : ℝ
  phase_shift : ℝ
  profile : List ℝ

/-- The construction parameters of a `LineSource` (`sources.py`); the spatial
data only exists after registration (`SourceRec`). -/
structure LineSource where
  period : PyNum := .int 15
  power : ℝ := 1.0
  phase_shift : ℝ := 0.0
  name : Option String := none

/-- The `Grid` state (`grid.py`).  `attrNames` models the attribute namespace
of the grid object consulted by `hasattr` when a named source registers
itself.  The element type of the boundary / detector / object collections is
`Empty`: those collaborator classes are outside the two source files of the
repository, so the modelled grids never contain any (their lists are
necessarily `[]`), and the loops over them in `update_E` / `update_H` are
vacuous. -/
structure Grid where
  Nx : ℕ
  Ny : ℕ
  Nz : ℕ
  grid_spacing : ℝ
  courant_number : ℝ
  timestep : ℝ
  E : FieldArr
  H : FieldArr
  inverse_permittivity : FieldArr
  inverse_permeability : FieldArr
  timesteps_passed : ℕ
  attrNames : List String
  sources : List SourceRec
  boundaries : List Empty
  detectors : List Empty
  objects : List Empty

/-- The shape of the grid's field arrays. -/
def Grid.sh (g : Grid) : Shape3 :=
  ⟨g.Nx, g.Ny, g.Nz⟩

/-- `Grid._handle_distance` with the grid spacing passed explicitly (the
constructor calls it before the grid record exists): an `int` passes through
unchanged, a `float` is divided by the spacing, shifted by `0.5` and
truncated by Python's `int(·)`. -/
noncomputable def handle_distanceS (spacing : ℝ) : PyNum → ℤ
  | .int n => n
  | .float x => pyInt (x / spacing + 0.5)

/-- `Grid._handle_distance`. -/
noncomputable def Grid.handle_distance (g : Grid) (d : PyNum) : ℤ :=
  handle_distanceS g.grid_spacing d

/-- `Grid._handle_time`: like `_handle_distance` with `timestep` in place of
`grid_spacing`. -/
noncomputable def Grid.handle_time (g : Grid) (t : PyNum) : ℤ :=
  match t with
  | .int n => n
  | .float x => pyInt (x / g.timestep + 0.5)

/-- `Grid._handle_tuple`: a shape of length other than 3 raises `ValueError`;
otherwise each entry goes through the distance resolver. -/
noncomputable def handle_tupleS (spacing : ℝ) (shape : List PyNum) :
    Except String (ℤ × ℤ × ℤ) :=
  match shape with
  | [x, y, z] =>
      Except.ok (handle_distanceS spacing x, handle_distanceS spacing y,
        handle_distanceS spacing z)
  | _ =>
      Except.error
        "ValueError: invalid grid shape; grid shape should be a 3D tuple containing floats or ints"

/-- The number of axes with more than one cell (`self.D` in the
constructor). -/
def countDims (Nx Ny Nz : ℕ) : ℕ :=
  (if 1 < Nx then 1 else 0) + (if 1 < Ny then 1 else 0) + (if 1 < Nz then 1 else 0)

/-- `self.D` computed on the resolved (possibly negative) integer sizes, as
`__init__` does before the arrays are allocated. -/
def countDimsZ (x y z : ℤ) : ℤ :=
  (if 1 < x then 1 else 0) + (if 1 < y then 1 else 0) + (if 1 < z then 1 else 0)

/-- The attribute names a freshly constructed grid exposes (instance
attributes set by `__init__` together with the class-level methods and
properties), consulted by `hasattr` when a named source registers. -/
def gridAttrNames : List String :=
  ["grid_spacing", "Nx", "Ny", "Nz", "D", "courant_number", "timestep",
   "E", "H", "inverse_permittivity", "inverse_permeability",
   "timesteps_passed", "_sources", "_boundaries", "_detectors", "_objects",
   "visualize", "x", "y", "z", "shape", "time_passed", "run", "step",
   "update_E", "update_H", "reset", "add_source", "add_boundary",
   "add_detector", "add_object"]

/-- The body of `Grid.__init__` after the shape has been resolved to
non-negative sizes: the default Courant number is `D ** (-0.5) * 0.99`, the
timestep is always `courant_number * grid_spacing / SPEED_LIGHT`, the field
arrays start as zeros, the material arrays as `ones / permittivity`
(resp. permeability), and all collaborator collections start empty. -/
noncomputable def mkGridOfSizes (Nx Ny Nz : ℕ)
    (grid_spacing permittivity permeability : ℝ) (courant : Option ℝ) : Grid :=
  let D : ℕ := countDims Nx Ny Nz
  let cn : ℝ :=
    match courant with
    | none => (D : ℝ) ^ (-(0.5 : ℝ)) * 0.99
    | some c => c
  { Nx := Nx, Ny := Ny, Nz := Nz
    grid_spacing := grid_spacing
    courant_number := cn
    timestep := cn * grid_spacing / SPEED_LIGHT
    E := fzeros
    H := fzeros
    inverse_permittivity := fun _ _ _ _ => 1 / permittivity
    inverse_permeability := fun _ _ _ _ => 1 / permeability
    timesteps_passed := 0
    attrNames := gridAttrNames
    sources := []
    boundaries := []
    detectors := []
    objects := [] }

/-- `Grid.__init__`: resolves and validates the shape (length 3), computes
`D` on the resolved integers, then allocates the arrays.  When no Courant
number is supplied and `D = 0` (all resolved sizes `≤ 1`),
`float(0) ** (-0.5)` raises `ZeroDivisionError` — before the allocation;
`numpy` then rejects negative sizes with `ValueError` when `bd.zeros`
runs. -/
noncomputable def Grid.mkGrid (shape : List PyNum)
    (grid_spacing permittivity permeability : ℝ) (courant : Option ℝ) :
    Except String Grid :=
  match handle_tupleS grid_spacing shape with
  | .error e => .error e
  | .ok (x, y, z) =>
      match courant with
      | none =>
          if countDimsZ x y z = 0 then
            Except.error "ZeroDivisionError: 0.0 cannot be raised to a negative power"
          else if x < 0 ∨ y < 0 ∨ z < 0 then
            Except.error "ValueError: negative dimensions are not allowed"
          else
            Except.ok (mkGridOfSizes x.toNat y.toNat z.toNat grid_spacing
              permittivity permeability none)
      | some c =>
          if x < 0 ∨ y < 0 ∨ z < 0 then
            Except.error "ValueError: negative dimensions are not allowed"
          else
            Except.ok (mkGridOfSizes x.toNat y.toNat z.toNat grid_spacing
              permittivity permeability (some c))

/-- One endpoint of a python slice through `Grid._handle_slice`: `None` and
ints pass through, floats go through the distance resolver. -/
noncomputable def resolveEnd (g : Grid) : Option PyNum → SliceEnd
  | none => .nul
  | some (.int n) => .int n
  | some (.float x) => .int (g.handle_distance (.float x))

/-- `Grid._handle_single_key`: a list is mapped through the distance
resolver, a slice through `_handle_slice`, and a bare number becomes a
one-element list. -/
noncomputable def Grid.handle_single_key (g : Grid) : AxisKey → ResolvedKey
  | .list l => .list (l.map g.handle_distance)
  | .slice start stop step =>
      .slice (resolveEnd g start) (resolveEnd g stop) (resolveEnd g step)
  | .num n => .list [g.handle_distance n]

/-- `np.linspace(a, b, m, endpoint=False)` followed by the cast to int: the
`t`-th point is `a + t * (b - a) / m`, truncated toward zero.  Since
`a + t * (b - a) / m = (a * m + t * (b - a)) / m` exactly and `Int.div`
truncates toward zero for the non-negative divisor `m` (`Int.tdiv`), the
value is computed
here by exact integer arithmetic; `linspaceInts_eq_pyIntQ` below proves it
equal to the truncation of the exact rational value. -/
def linspaceInts (a b : ℤ) (m : ℕ) : List ℤ :=
  (List.range m).map (fun (t : ℕ) => Int.tdiv (a * (m : ℤ) + (t : ℤ) * (b - a)) (m : ℤ))

/-- The two integer corner coordinates an axis key contributes in
`LineSource._handle_slices`: a list-index collapses to `slice(x[0], x[-1])`
(empty lists raise `IndexError` at `x[0]`), a slice contributes its
endpoints, and a `None` endpoint makes the arithmetic `x1 - x0` raise
`TypeError`. -/
def cornerInts : ResolvedKey → Except String (ℤ × ℤ)
  | .list [] => Except.error "IndexError: list index out of range"
  | .list (a :: rest) => Except.ok (a, (a :: rest).getLastD a)
  | .slice (.int a) (.int b) _ => Except.ok (a, b)
  | .slice _ _ _ => Except.error "TypeError: unsupported operand type for -: NoneType"

/-- `LineSource._handle_slices`: three equal-length lists are taken as-is
(unequal lengths raise `IndexError`); otherwise lists collapse to slices over
their first and last entries and the slices are resampled into
`m = max(|x1 - x0|, |y1 - y0|, |z1 - z0|)` integer points per axis via
`linspace(…, endpoint=False)`. -/
def LineSource.handle_slices (x y z : ResolvedKey) :
    Except String (List ℤ × List ℤ × List ℤ) :=
  match x, y, z with
  | .list lx, .list ly, .list lz =>
      if lx.length = ly.length ∧ ly.length = lz.length ∧ lz.length = lx.length then
        Except.ok (lx, ly, lz)
      else
        Except.error
          "IndexError: sources require grid to be indexed with slices or equal length list-indices"
  | x, y, z =>
      match cornerInts x, cornerInts y, cornerInts z with
      | .ok (x0, x1), .ok (y0, y1), .ok (z0, z1) =>
          let m : ℕ := max (x1 - x0).natAbs (max (y1 - y0).natAbs (z1 - z0).natAbs)
          Except.ok (linspaceInts x0 x1 m, linspaceInts y0 y1 m, linspaceInts z0 z1 m)
      | .error e, _, _ => .error e
      | .ok _, .error e, _ => .error e
      | .ok _, .ok _, .error e => .error e

/-- The grid-dependent precomputation of `LineSource._register_grid`: the
normalized coordinate lists, the period in timesteps, the per-cell amplitude
`(power * inverse_permittivity[x, y, z, 2]) ** 0.5`, the squared distances
`vect` to the midpoint cell, and the L1-normalized Gaussian profile
`exp(-vect² / (2 (0.5 max vect)²))` scaled by the amplitude. -/
noncomputable def LineSource.recordOf (p : LineSource) (g : Grid)
    (x y z : ResolvedKey) : Except String SourceRec :=
  match LineSource.handle_slices x y z with
  | .error e => .error e
  | .ok (xs, ys, zs) =>
      let period := g.handle_time p.period
      let L := xs.length
      if L = 0 then
        Except.error "IndexError: list index out of range"
      else
        let xm := xs.getD (L / 2) 0
        let ym := ys.getD (L / 2) 0
        let zm := zs.getD (L / 2) 0
        let cells := List.zip xs (List.zip ys zs)
        let amplitude : List ℝ := cells.map (fun t =>
          (p.power * g.inverse_permittivity t.1.toNat t.2.1.toNat t.2.2.toNat 2) ^ (0.5 : ℝ))
        let vect : List ℝ := cells.map (fun t =>
          (((t.1 - xm) ^ 2 + (t.2.1 - ym) ^ 2 + (t.2.2 - zm) ^ 2 : ℤ) : ℝ))
        let vmax := vect.foldl max 0
        let gauss := vect.map (fun v => Real.exp (-(v ^ 2) / (2 * (0.5 * vmax) ^ 2)))
        let total := gauss.sum
        let profile := (List.zip gauss amplitude).map (fun t => t.1 / total * t.2)
        Except.ok { xs := xs, ys := ys, zs := zs, period := period,
                    power := p.power, phase_shift := p.phase_shift, profile := profile }

/-- `LineSource._register_grid(grid, x, y, z)`: checks the name (a clash with
an existing grid attribute raises `ValueError`), performs the
precomputation, and leaves the source appended to `grid._sources` (and its
name added to the grid's attribute namespace). -/
noncomputable def LineSource.register_grid (p : LineSource) (g : Grid)
    (x y z : ResolvedKey) : Except String Grid :=
  match p.name with
  | some n =>
      if n ∈ g.attrNames then
        Except.error "ValueError: the grid already has an attribute with this name"
      else
        match LineSource.recordOf p g x y z with
        | .error e => .error e
        | .ok r =>
            Except.ok { g with sources := g.sources ++ [r],
                               attrNames := g.attrNames ++ [n] }
  | none =>
      match LineSource.recordOf p g x y z with
      | .error e => .error e
      | .ok r => Except.ok { g with sources := g.sources ++ [r] }

/-- `Grid.__setitem__`: a key of 1, 2 or 3 axis keys (missing trailing axes
default to the full slice `slice(None)`); more than 3 raises `KeyError`.
Each axis key is resolved by `_handle_single_key` and the collaborator's
`_register_grid` is invoked with the result. -/
noncomputable def Grid.setitem (g : Grid) (key : List AxisKey) (attr : LineSource) :
    Except String Grid :=
  let full : AxisKey := .slice none none none
  match key with
  | [x] =>
      attr.register_grid g (g.handle_single_key x) (g.handle_single_key full)
        (g.handle_single_key full)
  | [x, y] =>
      attr.register_grid g (g.handle_single_key x) (g.handle_single_key y)
        (g.handle_single_key full)
  | [x, y, z] =>
      attr.register_grid g (g.handle_single_key x) (g.handle_single_key y)
        (g.handle_single_key z)
  | _ => Except.error "KeyError: maximum number of indices for the grid is 3"

/-- In-place `A[x, y, z, cc] += v` at a single cell, with the integer
coordinates taken verbatim (the sources write at non-negative in-range
coordinates). -/
noncomputable def pointAddZ (A : FieldArr) (x y z : ℤ) (cc : ℕ) (v : ℝ) : FieldArr :=
  fun i j k c =>
    if (i : ℤ) = x ∧ (j : ℤ) = y ∧ (k : ℤ) = z ∧ c = cc then
      A i j k c + v
    else
      A i j k c

/-- `LineSource.update_E`: the profile scaled by
`sin(2 π q / period + phase_shift)` is added cell by cell into the
z-polarization component (index 2) of the field at the source's registered
coordinates. -/
noncomputable def source_update_E (q : ℕ) (s : SourceRec) (E : FieldArr) : FieldArr :=
  let vect := s.profile.map (fun p =>
    p * Real.sin (2 * Real.pi * (q : ℝ) / (s.period : ℝ) + s.phase_shift))
  (List.zip s.xs (List.zip s.ys (List.zip s.zs vect))).foldl
    (fun A t => pointAddZ A t.1 t.2.1 t.2.2.1 2 t.2.2.2) E

/-- `LineSource.update_H`: `pass`. -/
def source_update_H (_s : SourceRec) (H : FieldArr) : FieldArr := H

/-- `Grid.update_E`: the boundary pre-pass, object pass, boundary second pass
and detector pass iterate over `Empty`-typed collections (necessarily empty
in the model); then `E += courant_number * inverse_permittivity * curl_H(H)`
followed by every registered source's `update_E` (which reads the grid's
current `timesteps_passed` and mutates `E` in place). -/
noncomputable def Grid.update_E (g : Grid) : Grid :=
  let curl := curl_H g.sh g.H
  let E1 : FieldArr := fun i j k c =>
    g.E i j k c + g.courant_number * g.inverse_permittivity i j k c * curl i j k c
  let E2 := g.sources.foldl (fun A s => source_update_E g.timesteps_passed s A) E1
  { g with E := E2 }

/-- `Grid.update_H`: the mirror of `update_E` with
`H -= courant_number * inverse_permeability * curl_E(E)` and the sources'
(no-op) `update_H`. -/
noncomputable def Grid.update_H (g : Grid) : Grid :=
  let curl := curl_E g.sh g.E
  let H1 : FieldArr := fun i j k c =>
    g.H i j k c - g.courant_number * g.inverse_permeability i j k c * curl i j k c
  let H2 := g.sources.foldl (fun A s => source_update_H s A) H1
  { g with H := H2 }

/-- `Grid.step`: `update_E()`, then `update_H()`, then
`timesteps_passed += 1`. -/
noncomputable def Grid.step (g : Grid) : Grid :=
  let g1 := g.update_E
  let g2 := g1.update_H
  { g2 with timesteps_passed := g2.timesteps_passed + 1 }

/-- The number of iterations `Grid.run` performs: a float `total_time` is
divided by the timestep and truncated by `int(·)` (`range` then clamps below
at zero); an integer is used directly (clamped by `range`). -/
noncomputable def Grid.runCount (g : Grid) (total_time : PyNum) : ℕ :=
  match total_time with
  | .float x => (pyInt (x / g.timestep)).toNat
  | .int n => n.toNat

/-- `Grid.run(total_time)`: `step()` repeated `runCount` times. -/
noncomputable def Grid.run (g : Grid) (total_time : PyNum) : Grid :=
  Grid.step^[g.runCount total_time] g

/-- A key for Python's `l[key] = v` on a list: an integer index or a string. -/
inductive PyKey where
  | idx (n : ℤ)
  | str (s : String)

/-- Python list item assignment `l[key] = v`: a string key raises
`TypeError`; an integer key (with negative indexing) must be in range, else
`IndexError`. -/
def pyListSetItem {α : Type} (l : List α) (k : PyKey) (v : α) :
    Except String (List α) :=
  match k with
  | .str _ => Except.error "TypeError: list indices must be integers or slices, not str"
  | .idx n =>
      let i : ℤ := if n < 0 then n + l.length else n
      if 0 ≤ i ∧ i < l.length then
        Except.ok (l.set i.toNat v)
      else
        Except.error "IndexError: list assignment index out of range"

/-- The call `source._register_grid(self)` in `Grid.add_source`: for a
`LineSource`, `_register_grid` requires the `x`, `y`, `z` arguments, so the
one-argument call raises `TypeError` before anything is registered. -/
def lineSourceRegisterArityError : Except String SourceRec :=
  Except.error
    "TypeError: _register_grid() missing 3 required positional arguments: x, y, and z"

/-- `Grid.add_source(name, source)`: first `source._register_grid(self)`
(which raises for a `LineSource`; see `lineSourceRegisterArityError`), then
`self._sources[name] = source` — an assignment into the *list* `_sources`
with a string key, which itself always raises `TypeError`. -/
noncomputable def Grid.add_source (g : Grid) (name : String) (_source : LineSource) :
    Except String Grid :=
  match lineSourceRegisterArityError with
  | .error e => .error e
  | .ok r =>
      match pyListSetItem g.sources (.str name) r with
      | .error e => .error e
      | .ok srcs => Except.ok { g with sources := srcs }

/-- C2: for a field array `F` of shape `(Nx, Ny, Nz, 3)` and any in-bounds
cell `(i, j, k)`, the x-component of `curl_E F` is the forward difference
`F[i, j+1, k, 2] - F[i, j, k, 2]` minus `F[i, j, k+1, 1] - F[i, j, k, 1]`,
each difference contributing only where the `+1` neighbour exists (cells at
the last index along the differenced axis receive no contribution), with the
y- and z-components the cyclic right-hand analogues; `curl_H` is the
backward-difference dual, writing each difference only into cells of index
`≥ 1` along the differenced axis. -/
theorem curl_pointwise (sh : Shape3) (F : FieldArr) (i j k : ℕ)
    (hi : i < sh.Nx) (hj : j < sh.Ny) (hk : k < sh.Nz) :
    (curl_E sh F i j k 0 =
        (if j + 1 < sh.Ny then F i (j + 1) k 2 - F i j k 2 else 0)
      - (if k + 1 < sh.Nz then F i j (k + 1) 1 - F i j k 1 else 0)) ∧
    (curl_E sh F i j k 1 =
        (if k + 1 < sh.Nz then F i j (k + 1) 0 - F i j k 0 else 0)
      - (if i + 1 < sh.Nx then F (i + 1) j k 2 - F i j k 2 else 0)) ∧
    (curl_E sh F i j k 2 =
        (if i + 1 < sh.Nx then F (i + 1) j k 1 - F i j k 1 else 0)
      - (if j + 1 < sh.Ny then F i (j + 1) k 0 - F i j k 0 else 0)) ∧
    (curl_H sh F i j k 0 =
        (if 1 ≤ j then F i j k 2 - F i (j - 1) k 2 else 0)
      - (if 1 ≤ k then F i j k 1 - F i j (k - 1) 1 else 0)) ∧
    (curl_H sh F i j k 1 =
        (if 1 ≤ k then F i j k 0 - F i j (k - 1) 0 else 0)
      - (if 1 ≤ i then F i j k 2 - F (i - 1) j k 2 else 0)) ∧
    (curl_H sh F i j k 2 =
        (if 1 ≤ i then F i j k 1 - F (i - 1) j k 1 else 0)
      - (if 1 ≤ j then F i j k 0 - F i (j - 1) k 0 else 0)) := by
  refine ⟨?_, ?_, ?_, ?_, ?_, ?_⟩
  · by_cases h1 : j + 1 < sh.Ny <;> by_cases h2 : k + 1 < sh.Nz <;>
      simp [curl_E, fzeros, hi, hj, hk, h1, h2]
  · by_cases h1 : k + 1 < sh.Nz <;> by_cases h2 : i + 1 < sh.Nx <;>
      simp [curl_E, fzeros, hi, hj, hk, h1, h2]
  · by_cases h1 : i + 1 < sh.Nx <;> by_cases h2 : j + 1 < sh.Ny <;>
      simp [curl_E, fzeros, hi, hj, hk, h1, h2]
  · by_cases h1 : 1 ≤ j <;> by_cases h2 : 1 ≤ k <;>
      simp [curl_H, fzeros, hi, hj, hk, h1, h2]
  · by_cases h1 : 1 ≤ k <;> by_cases h2 : 1 ≤ i <;>
      simp [curl_H, fzeros, hi, hj, hk, h1, h2]
  · by_cases h1 : 1 ≤ i <;> by_cases h2 : 1 ≤ j <;>
      simp [curl_H, fzeros, hi, hj, hk, h1, h2]

/-- A sample field array for witnessing the curl formulas. -/
noncomputable def Ftest : FieldArr :=
  fun i j k c => (i : ℝ) + 2 * (j : ℝ) + 4 * (k : ℝ) + 8 * (c : ℝ)

theorem curl_pointwise_witness :
    ((1 : ℕ) < 2 ∧ (0 : ℕ) < 2 ∧ (1 : ℕ) < 2) ∧
    ((curl_E ⟨2, 2, 2⟩ Ftest 1 0 1 0 = (Ftest 1 1 1 2 - Ftest 1 0 1 2) - 0) ∧
     (curl_E ⟨2, 2, 2⟩ Ftest 1 0 1 1 = 0 - 0) ∧
     (curl_E ⟨2, 2, 2⟩ Ftest 1 0 1 2 = 0 - (Ftest 1 1 1 0 - Ftest 1 0 1 0)) ∧
     (curl_H ⟨2, 2, 2⟩ Ftest 1 0 1 0 = 0 - (Ftest 1 0 1 1 - Ftest 1 0 0 1)) ∧
     (curl_H ⟨2, 2, 2⟩ Ftest 1 0 1 1 =
        (Ftest 1 0 1 0 - Ftest 1 0 0 0) - (Ftest 1 0 1 2 - Ftest 0 0 1 2)) ∧
     (curl_H ⟨2, 2, 2⟩ Ftest 1 0 1 2 = (Ftest 1 0 1 1 - Ftest 0 0 1 1) - 0)) :=
  ⟨⟨by decide, by decide, by decide⟩,
   curl_pointwise ⟨2, 2, 2⟩ Ftest 1 0 1 (by decide) (by decide) (by decide)⟩

/-- C1: on a grid with no registered collaborators, `step()` replaces `E` by
`E + courant_number * inverse_permittivity * curl_H(H)` (using the pre-step
`H`), then replaces `H` by
`H - courant_number * inverse_permeability * curl_E(E')` where `E'` is the
just-updated electric field, and finally increments `timesteps_passed` by
exactly 1. -/
theorem step_leapfrog (g : Grid) (hs : g.sources = []) :
    (g.step).E = (fun i j k c =>
        g.E i j k c +
          g.courant_number * g.inverse_permittivity i j k c * curl_H g.sh g.H i j k c) ∧
    (g.step).H = (fun i j k c =>
        g.H i j k c -
          g.courant_number * g.inverse_permeability i j k c *
            curl_E g.sh (fun i' j' k' c' =>
              g.E i' j' k' c' +
                g.courant_number * g.inverse_permittivity i' j' k' c' *
                  curl_H g.sh g.H i' j' k' c') i j k c) ∧
    (g.step).timesteps_passed = g.timesteps_passed + 1 := by
  refine ⟨?_, ?_, rfl⟩
  · show (g.update_E).E = _
    simp [Grid.update_E, hs]
  · show ((g.update_E).update_H).H = _
    simp [Grid.update_E, Grid.update_H, Grid.sh, hs]

/-- A one-cell grid state used to witness theorems about grid methods. -/
noncomputable def unitGrid : Grid :=
  { Nx := 1, Ny := 1, Nz := 1
    grid_spacing := 1
    courant_number := 1
    timestep := 1
    E := fzeros
    H := fzeros
    inverse_permittivity := fun _ _ _ _ => 1
    inverse_permeability := fun _ _ _ _ => 1
    timesteps_passed := 0
    attrNames := gridAttrNames
    sources := []
    boundaries := []
    detectors := []
    objects := [] }

theorem step_leapfrog_witness :
    unitGrid.sources = [] ∧
    (unitGrid.step).timesteps_passed = unitGrid.timesteps_passed + 1 :=
  ⟨rfl, (step_leapfrog unitGrid rfl).2.2⟩

/-- The curl of the zero field is zero. -/
theorem curl_E_zero (sh : Shape3) : curl_E sh fzeros = fzeros := by
  funext i j k c
  simp [curl_E, fzeros]

/-- The backward curl of the zero field is zero. -/
theorem curl_H_zero (sh : Shape3) : curl_H sh fzeros = fzeros := by
  funext i j k c
  simp [curl_H, fzeros]

/-- One step on a sourceless grid with zero fields yields zero fields again
(and keeps the source list empty). -/
theorem step_zero_preserves (g : Grid) (hE : g.E = fzeros) (hH : g.H = fzeros)
    (hs : g.sources = []) :
    (g.step).E = fzeros ∧ (g.step).H = fzeros ∧ (g.step).sources = [] := by
  have h1E : (g.update_E).E = fzeros := by
    funext i j k c
    simp [Grid.update_E, hs, hE, hH, curl_H_zero, fzeros]
  have h1H : (g.update_E).H = g.H := rfl
  have h1s : (g.update_E).sources = g.sources := rfl
  refine ⟨?_, ?_, hs⟩
  · show ((g.update_E).update_H).E = fzeros
    simpa [Grid.update_H] using h1E
  · show ((g.update_E).update_H).H = fzeros
    funext i j k c
    simp [Grid.update_H, h1E, h1H, h1s, hs, hH, curl_E_zero, fzeros]

/-- A grid accepted by the constructor starts with zero fields, zero steps
taken and no registered collaborators. -/
theorem mkGrid_ok_start (shape : List PyNum) (sp p pm : ℝ) (co : Option ℝ)
    (g : Grid) (h : Grid.mkGrid shape sp p pm co = Except.ok g) :
    g.E = fzeros ∧ g.H = fzeros ∧ g.sources = [] ∧ g.timesteps_passed = 0 := by
  rcases co with - | c
  · unfold Grid.mkGrid at h
    rcases htup : handle_tupleS sp shape with e | ⟨x, y, z⟩ <;> rw [htup] at h
    · cases h
    · dsimp only at h
      split at h
      · cases h
      · split at h
        · cases h
        · cases h with
          | refl => exact ⟨rfl, rfl, rfl, rfl⟩
  · unfold Grid.mkGrid at h
    rcases htup : handle_tupleS sp shape with e | ⟨x, y, z⟩ <;> rw [htup] at h
    · cases h
    · dsimp only at h
      split at h
      · cases h
      · cases h with
        | refl => exact ⟨rfl, rfl, rfl, rfl⟩

/-- C3: a freshly constructed grid (fields at their zero initialization, no
collaborators registered) keeps `E` and `H` identically zero under any
number of `step()` calls. -/
theorem step_iter_zero (shape : List PyNum) (sp p pm : ℝ) (co : Option ℝ)
    (g : Grid) (h : Grid.mkGrid shape sp p pm co = Except.ok g) (n i j k c : ℕ) :
    (Grid.step^[n] g).E i j k c = 0 ∧ (Grid.step^[n] g).H i j k c = 0 := by
  obtain ⟨hE, hH, hs, -⟩ := mkGrid_ok_start shape sp p pm co g h
  suffices hinv : ∀ (m : ℕ) (g0 : Grid), g0.E = fzeros → g0.H = fzeros →
      g0.sources = [] →
      (Grid.step^[m] g0).E = fzeros ∧ (Grid.step^[m] g0).H = fzeros by
    obtain ⟨hE', hH'⟩ := hinv n g hE hH hs
    exact ⟨by rw [hE']; rfl, by rw [hH']; rfl⟩
  intro m
  induction m with
  | zero => intro g0 hE0 hH0 _; exact ⟨hE0, hH0⟩
  | succ m ih =>
      intro g0 hE0 hH0 hs0
      obtain ⟨h1, h2, h3⟩ := step_zero_preserves g0 hE0 hH0 hs0
      rw [Function.iterate_succ_apply]
      exact ih g0.step h1 h2 h3

theorem step_iter_zero_witness :
    Grid.mkGrid [PyNum.int 2, PyNum.int 2, PyNum.int 2] 1 1 1 (some 1) =
      Except.ok (mkGridOfSizes 2 2 2 1 1 1 (some 1)) ∧
    (Grid.step^[3] (mkGridOfSizes 2 2 2 1 1 1 (some 1))).E 1 1 1 2 = 0 ∧
    (Grid.step^[3] (mkGridOfSizes 2 2 2 1 1 1 (some 1))).H 1 1 1 2 = 0 :=
  ⟨rfl,
   (step_iter_zero [PyNum.int 2, PyNum.int 2, PyNum.int 2] 1 1 1 (some 1)
      (mkGridOfSizes 2 2 2 1 1 1 (some 1)) rfl 3 1 1 1 2).1,
   (step_iter_zero [PyNum.int 2, PyNum.int 2, PyNum.int 2] 1 1 1 (some 1)
      (mkGridOfSizes 2 2 2 1 1 1 (some 1)) rfl 3 1 1 1 2).2⟩

/-- C4: when `courant_number` is unspecified the constructor sets it to
`D ** (-0.5) * 0.99` where `D` is the number of axes of the resolved shape
with size `> 1` (hence `0.99` for a 1D grid), and in every case it sets
`timestep = courant_number * grid_spacing / 299792458.0`, never independently
of those two values. -/
theorem mkGrid_courant_timestep (shape : List PyNum) (sp p pm : ℝ)
    (co : Option ℝ) (g : Grid) (h : Grid.mkGrid shape sp p pm co = Except.ok g) :
    g.timestep = g.courant_number * g.grid_spacing / SPEED_LIGHT ∧
    (co = none →
      g.courant_number = ((countDims g.Nx g.Ny g.Nz : ℝ)) ^ (-(0.5 : ℝ)) * 0.99) ∧
    (co = none → countDims g.Nx g.Ny g.Nz = 1 → g.courant_number = 0.99) := by
  rcases co with - | c
  · unfold Grid.mkGrid at h
    rcases htup : handle_tupleS sp shape with e | ⟨x, y, z⟩ <;> rw [htup] at h
    · cases h
    · dsimp only at h
      split at h
      · cases h
      · split at h
        · cases h
        · cases h with
          | refl =>
              refine ⟨rfl, fun _ => rfl, fun _ h1 => ?_⟩
              have h2 : (mkGridOfSizes x.toNat y.toNat z.toNat sp p pm none).courant_number =
                  ((countDims x.toNat y.toNat z.toNat : ℝ)) ^ (-(0.5 : ℝ)) * 0.99 := rfl
              rw [h2]
              have h3 : countDims x.toNat y.toNat z.toNat = 1 := h1
              rw [h3]
              simp [Real.one_rpow]
  · unfold Grid.mkGrid at h
    rcases htup : handle_tupleS sp shape with e | ⟨x, y, z⟩ <;> rw [htup] at h
    · cases h
    · dsimp only at h
      split at h
      · cases h
      · cases h with
        | refl => exact ⟨rfl, fun hco => Option.noConfusion hco,
            fun hco => Option.noConfusion hco⟩

theorem mkGrid_courant_timestep_witness :
    Grid.mkGrid [PyNum.int 2, PyNum.int 3, PyNum.int 4] 2 1 1 none =
      Except.ok (mkGridOfSizes 2 3 4 2 1 1 none) ∧
    (mkGridOfSizes 2 3 4 2 1 1 none).timestep =
      (mkGridOfSizes 2 3 4 2 1 1 none).courant_number *
        (mkGridOfSizes 2 3 4 2 1 1 none).grid_spacing / SPEED_LIGHT ∧
    (mkGridOfSizes 2 3 4 2 1 1 none).courant_number =
      ((countDims 2 3 4 : ℝ)) ^ (-(0.5 : ℝ)) * 0.99 :=
  ⟨rfl,
   (mkGrid_courant_timestep [PyNum.int 2, PyNum.int 3, PyNum.int 4] 2 1 1 none
      (mkGridOfSizes 2 3 4 2 1 1 none) rfl).1,
   (mkGrid_courant_timestep [PyNum.int 2, PyNum.int 3, PyNum.int 4] 2 1 1 none
      (mkGridOfSizes 2 3 4 2 1 1 none) rfl).2.1 rfl⟩

/-- C5 counterexample: `_handle_distance` is *not* `floor(d / spacing + 0.5)`
on every float: Python's `int(·)` truncates toward zero, so with spacing 1
the float `-2.6` resolves to `-2` while the claimed floor formula gives
`-3`. -/
theorem handle_distance_not_floor :
    unitGrid.handle_distance (.float (-2.6)) = -2 ∧
    ⌊(-2.6 : ℝ) / unitGrid.grid_spacing + 0.5⌋ = -3 ∧
    unitGrid.handle_distance (.float (-2.6)) ≠
      ⌊(-2.6 : ℝ) / unitGrid.grid_spacing + 0.5⌋ := by
  have harg : ((-2.6 : ℝ) / unitGrid.grid_spacing + 0.5) = -2.1 := by
    show ((-2.6 : ℝ) / 1 + 0.5) = -2.1
    norm_num
  have h1 : unitGrid.handle_distance (.float (-2.6)) = -2 := by
    show pyInt ((-2.6 : ℝ) / unitGrid.grid_spacing + 0.5) = -2
    rw [harg]
    unfold pyInt
    rw [if_neg (by norm_num)]
    rw [Int.ceil_eq_iff]
    constructor <;> norm_num
  have h2 : ⌊(-2.6 : ℝ) / unitGrid.grid_spacing + 0.5⌋ = -3 := by
    rw [harg, Int.floor_eq_iff]
    constructor <;> norm_num
  exact ⟨h1, h2, by rw [h1, h2]; decide⟩

/-- C5 (amended): `_handle_distance` passes integers through unchanged, and
on a float `d` returns `int(d / grid_spacing + 0.5)` with Python's
truncation toward zero, which agrees with `floor(d / grid_spacing + 0.5)`
exactly when that argument is non-negative (e.g. spacing 1.0 and `d = 2.5`
resolve to 3, not 2). -/
theorem handle_distance_trunc (g : Grid) (n : ℤ) (d : ℝ) :
    g.handle_distance (.int n) = n ∧
    (0 ≤ d / g.grid_spacing + 0.5 →
      g.handle_distance (.float d) = ⌊d / g.grid_spacing + 0.5⌋) := by
  refine ⟨rfl, fun h => ?_⟩
  show pyInt (d / g.grid_spacing + 0.5) = _
  unfold pyInt
  rw [if_pos h]

theorem handle_distance_trunc_witness :
    (0 ≤ (2.5 : ℝ) / unitGrid.grid_spacing + 0.5) ∧
    unitGrid.handle_distance (.int 7) = 7 ∧
    unitGrid.handle_distance (.float 2.5) =
      ⌊(2.5 : ℝ) / unitGrid.grid_spacing + 0.5⌋ :=
  ⟨by show (0 : ℝ) ≤ 2.5 / 1 + 0.5; norm_num,
   (handle_distance_trunc unitGrid 7 2.5).1,
   (handle_distance_trunc unitGrid 7 2.5).2
     (by show (0 : ℝ) ≤ 2.5 / 1 + 0.5; norm_num)⟩

/-- Iterating `step` adds exactly the iteration count to
`timesteps_passed`. -/
theorem iterate_step_timesteps (n : ℕ) (g : Grid) :
    (Grid.step^[n] g).timesteps_passed = g.timesteps_passed + n := by
  induction n generalizing g with
  | zero => rfl
  | succ n ih =>
      rw [Function.iterate_succ_apply]
      rw [ih g.step]
      have hstep : (g.step).timesteps_passed = g.timesteps_passed + 1 := rfl
      rw [hstep]
      omega

/-- C6 (amended): `run(total_time)` converts a float `total_time` by
`int(total_time / timestep)` — plain truncation toward zero, *not* the
round-half-up `_handle_time` resolver — and clamps below at zero (an integer
`total_time` is used directly, likewise clamped); it then calls `step()`
exactly that many times, so `timesteps_passed` grows by exactly that
count. -/
theorem run_truncated_count (g : Grid) (t : PyNum) :
    g.run t = Grid.step^[g.runCount t] g ∧
    (g.run t).timesteps_passed = g.timesteps_passed + g.runCount t ∧
    (∀ x : ℝ, g.runCount (.float x) = (pyInt (x / g.timestep)).toNat) ∧
    (∀ n : ℤ, g.runCount (.int n) = n.toNat) :=
  ⟨rfl, iterate_step_timesteps (g.runCount t) g, fun _ => rfl, fun _ => rfl⟩

/-- C6 counterexample: with `timestep = 1`, `run(0.9)` performs
`int(0.9) = 0` steps, while the round-half-up time resolver `_handle_time`
claimed by the spec gives `int(0.9 + 0.5) = 1`; `timesteps_passed` does not
grow by the resolver's count. -/
theorem run_not_round_half_up :
    (unitGrid.run (.float 0.9)).timesteps_passed = unitGrid.timesteps_passed ∧
    unitGrid.handle_time (.float 0.9) = 1 ∧
    (unitGrid.run (.float 0.9)).timesteps_passed ≠
      unitGrid.timesteps_passed + (unitGrid.handle_time (.float 0.9)).toNat := by
  have hcount : unitGrid.runCount (.float 0.9) = 0 := by
    show (pyInt ((0.9 : ℝ) / unitGrid.timestep)).toNat = 0
    have harg : ((0.9 : ℝ) / unitGrid.timestep) = 0.9 := by
      show ((0.9 : ℝ) / 1) = 0.9
      norm_num
    rw [harg]
    unfold pyInt
    rw [if_pos (by norm_num)]
    have : ⌊(0.9 : ℝ)⌋ = 0 := by
      rw [Int.floor_eq_iff]
      norm_num
    rw [this]
    rfl
  have hrun : unitGrid.run (.float 0.9) = unitGrid := by
    show Grid.step^[unitGrid.runCount (.float 0.9)] unitGrid = unitGrid
    rw [hcount]
    rfl
  have htime : unitGrid.handle_time (.float 0.9) = 1 := by
    show pyInt ((0.9 : ℝ) / unitGrid.timestep + 0.5) = 1
    have harg : ((0.9 : ℝ) / unitGrid.timestep + 0.5) = 1.4 := by
      show ((0.9 : ℝ) / 1 + 0.5) = 1.4
      norm_num
    rw [harg]
    unfold pyInt
    rw [if_pos (by norm_num)]
    rw [Int.floor_eq_iff]
    norm_num
  refine ⟨by rw [hrun], htime, ?_⟩
  rw [hrun, htime]
  decide

/-- C7: `add_source(name, source)` does not register anything: the call
`source._register_grid(self)` is missing the `x`, `y`, `z` arguments a
`LineSource` requires, and the following line `self._sources[name] = source`
indexes the *list* `_sources` (initialized as `[]` by `__init__`, despite
its comment saying "dictionary") with a string key — each of the two raises
`TypeError`, so no collaborator is ever stored under a name. -/
theorem add_source_type_error (g : Grid) (name : String) (s : LineSource) :
    g.add_source name s =
      Except.error
        "TypeError: _register_grid() missing 3 required positional arguments: x, y, and z" ∧
    ∀ (l : List SourceRec) (v : SourceRec),
      pyListSetItem l (.str name) v =
        Except.error "TypeError: list indices must be integers or slices, not str" :=
  ⟨rfl, fun _ _ => rfl⟩

/-- C8 counterexample: a shape with a non-positive size is *not* rejected —
construction with shape `(0, 5, 5)` succeeds (`numpy` happily allocates
zero-size arrays; only the tuple length is validated). -/
theorem mkGrid_accepts_zero_size :
    ∃ g : Grid,
      Grid.mkGrid [PyNum.int 0, PyNum.int 5, PyNum.int 5] 1 1 1 none = Except.ok g :=
  ⟨mkGridOfSizes 0 5 5 1 1 1 none, rfl⟩

/-- C8 (amended): construction validates the shape *length* eagerly — any
shape tuple whose length is not 3 is rejected with `ValueError` before any
stepping can happen.  Positivity is not validated: a zero size is accepted
(see the counterexample), and negative sizes fail only when the arrays are
allocated. -/
theorem mkGrid_rejects_bad_length (shape : List PyNum) (sp p pm : ℝ)
    (co : Option ℝ) (h : shape.length ≠ 3) :
    Grid.mkGrid shape sp p pm co =
      Except.error
        "ValueError: invalid grid shape; grid shape should be a 3D tuple containing floats or ints" := by
  unfold Grid.mkGrid
  rcases shape with - | ⟨a, - | ⟨b, - | ⟨c, - | ⟨d, t⟩⟩⟩⟩
  all_goals first | (exact absurd rfl h) | rfl

theorem mkGrid_rejects_bad_length_witness :
    ([PyNum.int 1, PyNum.int 2].length ≠ 3) ∧
    Grid.mkGrid [PyNum.int 1, PyNum.int 2] 1 1 1 none =
      Except.error
        "ValueError: invalid grid shape; grid shape should be a 3D tuple containing floats or ints" :=
  ⟨by decide, mkGrid_rejects_bad_length [PyNum.int 1, PyNum.int 2] 1 1 1 none (by decide)⟩

/-- `linspace(a, b, m, endpoint=False)` yields exactly `m` points. -/
theorem linspaceInts_length (a b : ℤ) (m : ℕ) : (linspaceInts a b m).length = m := by
  unfold linspaceInts
  rw [List.length_map, List.length_range]

/-- Projecting an element of the four-way zip used by the source's
`update_E` onto its coordinates lands in the three-way zip of the coordinate
lists. -/
theorem mem_zip4_proj {α : Type} (xs ys zs : List ℤ) (vs : List α) (x y z : ℤ)
    (v : α) (h : (x, y, z, v) ∈ List.zip xs (List.zip ys (List.zip zs vs))) :
    (x, y, z) ∈ List.zip xs (List.zip ys zs) := by
  induction xs generalizing ys zs vs with
  | nil => simp at h
  | cons a xs ih =>
      rcases ys with - | ⟨b, ys⟩
      · simp at h
      rcases zs with - | ⟨c, zs⟩
      · simp at h
      rcases vs with - | ⟨w, vs⟩
      · simp at h
      rw [List.zip_cons_cons, List.zip_cons_cons, List.zip_cons_cons] at h
      rw [List.zip_cons_cons, List.zip_cons_cons]
      rcases List.mem_cons.mp h with h1 | h1
      · refine List.mem_cons.mpr (Or.inl ?_)
        simp only [Prod.mk.injEq] at h1
        simp [Prod.mk.injEq, h1.1, h1.2.1, h1.2.2.1]
      · exact List.mem_cons.mpr (Or.inr (ih ys zs vs h1))

/-- The point-wise writes of a source's `update_E` leave every entry that is
not one of its registered `(x, y, z, 2)` cells unchanged. -/
theorem foldl_pointAdd_frame (L : List (ℤ × ℤ × ℤ × ℝ)) (E : FieldArr)
    (i j k c : ℕ)
    (h : ∀ p ∈ L, ¬((i : ℤ) = p.1 ∧ (j : ℤ) = p.2.1 ∧ (k : ℤ) = p.2.2.1 ∧ c = 2)) :
    (L.foldl (fun A t => pointAddZ A t.1 t.2.1 t.2.2.1 2 t.2.2.2) E) i j k c =
      E i j k c := by
  induction L generalizing E with
  | nil => rfl
  | cons p L ih =>
      rw [List.foldl_cons]
      rw [ih (pointAddZ E p.1 p.2.1 p.2.2.1 2 p.2.2.2)
        (fun q hq => h q (List.mem_cons_of_mem p hq))]
      simp only [pointAddZ]
      exact if_neg (h p (List.mem_cons_self p L))

/-- The resolved slice `slice(a, b)` (no step), as produced for integer
slice corners. -/
def intSlice (a b : ℤ) : ResolvedKey :=
  .slice (.int a) (.int b) .nul

/-- C9: a `LineSource` attached with slice coordinates from corner
`(x0, y0, z0)` to `(x1, y1, z1)` normalizes its footprint to
`m = max(|x1 - x0|, |y1 - y0|, |z1 - z0|)` evenly spaced integer points per
axis, and its per-step `update_E` adds values only into the z-polarization
component (index 2) of `E` at those cells — every other entry of `E` is left
unchanged, and `update_H` is a no-op. -/
theorem line_source_points_and_frame (x0 y0 z0 x1 y1 z1 : ℤ) (xs ys zs : List ℤ)
    (hS : LineSource.handle_slices (intSlice x0 x1) (intSlice y0 y1) (intSlice z0 z1) =
      Except.ok (xs, ys, zs)) :
    (xs.length = max (x1 - x0).natAbs (max (y1 - y0).natAbs (z1 - z0).natAbs) ∧
     ys.length = max (x1 - x0).natAbs (max (y1 - y0).natAbs (z1 - z0).natAbs) ∧
     zs.length = max (x1 - x0).natAbs (max (y1 - y0).natAbs (z1 - z0).natAbs)) ∧
    (∀ s : SourceRec, s.xs = xs → s.ys = ys → s.zs = zs →
      ∀ (q : ℕ) (E : FieldArr) (i j k c : ℕ),
        (c ≠ 2 ∨ ((i : ℤ), (j : ℤ), (k : ℤ)) ∉ List.zip xs (List.zip ys zs)) →
        source_update_E q s E i j k c = E i j k c) ∧
    (∀ (s : SourceRec) (H : FieldArr), source_update_H s H = H) := by
  have h' : Except.ok (ε := String)
      (linspaceInts x0 x1 (max (x1 - x0).natAbs (max (y1 - y0).natAbs (z1 - z0).natAbs)),
       linspaceInts y0 y1 (max (x1 - x0).natAbs (max (y1 - y0).natAbs (z1 - z0).natAbs)),
       linspaceInts z0 z1 (max (x1 - x0).natAbs (max (y1 - y0).natAbs (z1 - z0).natAbs))) =
      Except.ok (xs, ys, zs) := hS
  injection h' with h''
  simp only [Prod.mk.injEq] at h''
  obtain ⟨hx, hy, hz⟩ := h''
  refine ⟨⟨?_, ?_, ?_⟩, ?_, fun s H => rfl⟩
  · rw [← hx]; exact linspaceInts_length _ _ _
  · rw [← hy]; exact linspaceInts_length _ _ _
  · rw [← hz]; exact linspaceInts_length _ _ _
  · intro s hsx hsy hsz q E i j k c hc
    simp only [source_update_E]
    apply foldl_pointAdd_frame
    intro p hp hcontra
    obtain ⟨h1, h2, h3, h4⟩ := hcontra
    rcases hc with hc | hc
    · exact hc h4
    · apply hc
      have hmem := mem_zip4_proj s.xs s.ys s.zs _ p.1 p.2.1 p.2.2.1 p.2.2.2 hp
      rw [hsx, hsy, hsz] at hmem
      rw [h1, h2, h3]
      exact hmem

/-- The ten evenly spaced x-coordinates of the witness line. -/
def c9xs : List ℤ := [0, 1, 2, 3, 4, 5, 6, 7, 8, 9]

/-- The constant-zero coordinate list of the witness line. -/
def c9zeros : List ℤ := [0, 0, 0, 0, 0, 0, 0, 0, 0, 0]

/-- A registered source record along the witness line. -/
noncomputable def c9src : SourceRec :=
  { xs := c9xs, ys := c9zeros, zs := c9zeros, period := 15, power := 1,
    phase_shift := 0, profile := List.replicate 10 1 }

theorem line_source_points_and_frame_witness :
    LineSource.handle_slices (intSlice 0 10) (intSlice 0 0) (intSlice 0 0) =
      Except.ok (c9xs, c9zeros, c9zeros) ∧
    c9xs.length = 10 ∧
    source_update_E 0 c9src fzeros 0 0 1 0 = fzeros 0 0 1 0 :=
  ⟨by rfl, by decide,
   (line_source_points_and_frame 0 0 0 10 0 0 c9xs c9zeros c9zeros (by rfl)).2.1 c9src
     rfl rfl rfl 0 fzeros 0 0 1 0 (Or.inl (by decide))⟩

/-- Truncation toward zero of the exact rational `p / m` is `Int.tdiv`. -/
theorem pyIntQ_intCast_div_natCast (p : ℤ) (m : ℕ) (hm : 0 < m) :
    pyIntQ ((p : ℚ) / (m : ℚ)) = Int.tdiv p m := by
  have hm' : (0 : ℚ) < (m : ℚ) := by exact_mod_cast hm
  unfold pyIntQ
  by_cases hp : 0 ≤ p
  · rw [if_pos (by positivity)]
    rw [Rat.floor_intCast_div_natCast]
    exact (Int.tdiv_eq_ediv hp (by positivity)).symm
  · push_neg at hp
    have hneg : ¬ (0 : ℚ) ≤ (p : ℚ) / (m : ℚ) := by
      rw [not_le]
      apply div_neg_of_neg_of_pos _ hm'
      exact_mod_cast hp
    rw [if_neg hneg]
    have h1 : (⌈(p : ℚ) / (m : ℚ)⌉) = -⌊((-p : ℤ) : ℚ) / (m : ℚ)⌋ := by
      rw [show ((-p : ℤ) : ℚ) = -(p : ℚ) by push_cast; ring, neg_div]
      rfl
    rw [h1, Rat.floor_intCast_div_natCast]
    have h2 : Int.tdiv (-p) (m : ℤ) = (-p) / (m : ℤ) :=
      Int.tdiv_eq_ediv (by omega) (by positivity)
    rw [← h2, Int.neg_tdiv, neg_neg]

/-- `linspaceInts` computes exactly the truncation toward zero of the ideal
rational linspace values `a + t * (b - a) / m`. -/
theorem linspaceInts_eq_pyIntQ (a b : ℤ) (m : ℕ) :
    linspaceInts a b m = (List.range m).map
      (fun (t : ℕ) => pyIntQ ((a : ℚ) + (t : ℚ) * ((b : ℚ) - (a : ℚ)) / (m : ℚ))) := by
  unfold linspaceInts
  apply List.map_congr_left
  intro t ht
  have hm : 0 < m := by
    have := List.mem_range.mp ht
    omega
  have hm' : (m : ℚ) ≠ 0 := by
    exact_mod_cast hm.ne'
  have harg : ((a : ℚ) + (t : ℚ) * ((b : ℚ) - (a : ℚ)) / (m : ℚ)) =
      (((a * (m : ℤ) + (t : ℤ) * (b - a) : ℤ) : ℚ)) / (m : ℚ) := by
    field_simp
  rw [harg, pyIntQ_intCast_div_natCast _ _ hm]

/-- A record accepted by the source precomputation carries the source's
construction parameters. -/
theorem recordOf_ok_params (p : LineSource) (g : Grid) (x y z : ResolvedKey)
    (r : SourceRec) (h : LineSource.recordOf p g x y z = Except.ok r) :
    r.power = p.power ∧ r.phase_shift = p.phase_shift := by
  unfold LineSource.recordOf at h
  rcases hS : LineSource.handle_slices x y z with e | ⟨xs, ys, zs⟩ <;> rw [hS] at h
  · cases h
  · dsimp only at h
    split at h
    · cases h
    · cases h with
      | refl => exact ⟨rfl, rfl⟩

/-- C10: index-assignment attachment alone fully activates a source —
`grid[key] = source` makes the registration callback append a record for the
source to the grid's source list, and the next `update_E` applies exactly
that source's injection on top of the curl update; no `add_source` call is
involved. -/
theorem setitem_registers_source (g : Grid) (key : List AxisKey) (s : LineSource)
    (g' : Grid) (hs : g.sources = []) (h : Grid.setitem g key s = Except.ok g') :
    ∃ r : SourceRec,
      g'.sources = g.sources ++ [r] ∧
      r.power = s.power ∧ r.phase_shift = s.phase_shift ∧
      (g'.update_E).E = source_update_E g'.timesteps_passed r
        (fun i j k c => g'.E i j k c +
          g'.courant_number * g'.inverse_permittivity i j k c *
            curl_H g'.sh g'.H i j k c) := by
  have hreg : ∃ x y z, LineSource.register_grid s g x y z = Except.ok g' := by
    unfold Grid.setitem at h
    rcases key with - | ⟨a, - | ⟨b, - | ⟨c, - | ⟨d, t⟩⟩⟩⟩
    · cases h
    · exact ⟨_, _, _, h⟩
    · exact ⟨_, _, _, h⟩
    · exact ⟨_, _, _, h⟩
    · cases h
  obtain ⟨x, y, z, hreg⟩ := hreg
  unfold LineSource.register_grid at hreg
  rcases hname : s.name with - | n <;> rw [hname] at hreg
  · dsimp only at hreg
    rcases hrec : LineSource.recordOf s g x y z with e | r <;> rw [hrec] at hreg
    · cases hreg
    · cases hreg with
      | refl =>
          obtain ⟨hpow, hphase⟩ := recordOf_ok_params s g x y z r hrec
          refine ⟨r, rfl, hpow, hphase, ?_⟩
          show (({ g with sources := g.sources ++ [r] } : Grid).update_E).E = _
          simp [Grid.update_E, Grid.sh, hs]
  · dsimp only at hreg
    split at hreg
    · cases hreg
    · rcases hrec : LineSource.recordOf s g x y z with e | r <;> rw [hrec] at hreg
      · cases hreg
      · cases hreg with
        | refl =>
            obtain ⟨hpow, hphase⟩ := recordOf_ok_params s g x y z r hrec
            refine ⟨r, rfl, hpow, hphase, ?_⟩
            show ((Grid.update_E { g with sources := g.sources ++ [r], attrNames := g.attrNames ++ [n] })).E = _
            simp [Grid.update_E, Grid.sh, hs]

/-- A 12-cell 1D grid for witnessing index-assignment attachment. -/
noncomputable def c10grid : Grid :=
  mkGridOfSizes 12 1 1 1 1 1 (some 1)

/-- A default `LineSource` (period 15 timesteps, unnamed). -/
def c10src : LineSource :=
  { period := .int 15, power := 1, phase_shift := 0, name := none }

/-- The key `grid[0:10, 0, 0]`. -/
def c10key : List AxisKey :=
  [.slice (some (.int 0)) (some (.int 10)) none, .num (.int 0), .num (.int 0)]

/-- The grid produced by the witness attachment. -/
noncomputable def c10res : Grid :=
  (Grid.setitem c10grid c10key c10src).toOption.getD c10grid

theorem setitem_registers_source_witness :
    c10grid.sources = [] ∧
    Grid.setitem c10grid c10key c10src = Except.ok c10res ∧
    ∃ r : SourceRec,
      c10res.sources = c10grid.sources ++ [r] ∧
      r.power = c10src.power ∧ r.phase_shift = c10src.phase_shift ∧
      (c10res.update_E).E = source_update_E c10res.timesteps_passed r
        (fun i j k c => c10res.E i j k c +
          c10res.courant_number * c10res.inverse_permittivity i j k c *
            curl_H c10res.sh c10res.H i j k c) :=
  ⟨rfl, rfl, setitem_registers_source c10grid c10key c10src c10res rfl rfl⟩
